import Mathlib

/-!
Shallow embedding of the core state of `rgb-lightning-node` (`src/ldk.rs`,
`src/utils.rs`): the ledger store (payment and swap maps), the channel-id
tracker, the swap validator inside the `HTLCIntercepted` arm of
`handle_ldk_events`, the colored output spender's idempotent cache, and the
password check from `utils.rs`.

Machine integers (`u64`, msat amounts, RGB amounts) are modelled as `Nat`;
the only arithmetic the embedded code performs on them is `checked_sub`
(modelled as an `Option Nat`) and `saturating_sub` (which is exactly
`Nat.sub`), so no wrap-around modelling is needed.  Hashes, contract ids,
channel ids, payment ids and node ids are opaque in the source and modelled
as `Nat`.  Rust `HashMap`s are modelled as association lists with
overwrite-on-insert semantics (`ainsert` erases the key first, so a key is
mapped to at most one value).  A Rust `panic` (from `.unwrap()` on `None`
or an explicit panic) is modelled as `Except.error`; the `save_*`
persistence calls happen only on the `Except.ok` branch, so an error result
means the map was neither modified nor persisted.
-/

/-- Association-list lookup, modelling `HashMap::get`. -/
def alookup {α : Type} : List (Nat × α) → Nat → Option α
  | [], _ => none
  | (k', v) :: rest, k => if k' = k then some v else alookup rest k

/-- Remove every binding of key `k`, modelling `HashMap::remove`. -/
def aerase {α : Type} (m : List (Nat × α)) (k : Nat) : List (Nat × α) :=
  m.filter (fun p => p.1 != k)

/-- Insert with overwrite, modelling `HashMap::insert`. -/
def ainsert {α : Type} (m : List (Nat × α)) (k : Nat) (v : α) : List (Nat × α) :=
  (k, v) :: aerase m k

theorem alookup_aerase {α : Type} (m : List (Nat × α)) (k : Nat) :
    alookup (aerase m k) k = none := by
  induction m with
  | nil => rfl
  | cons p rest ih =>
    simp only [aerase, List.filter_cons] at *
    by_cases h : p.1 = k
    · simpa [h] using ih
    · simpa [h, bne_iff_ne, alookup] using ih

theorem alookup_ainsert_self {α : Type} (m : List (Nat × α)) (k : Nat) (v : α) :
    alookup (ainsert m k v) k = some v := by
  simp [ainsert, alookup]

/-- Rust `u64::checked_sub`. -/
def checked_sub (a b : Nat) : Option Nat :=
  if b ≤ a then some (a - b) else none

/-- Payment status, `HTLCStatus` from `crate::routes` (variants named in
`src/ldk.rs`). -/
inductive HTLCStatus
  | pendingStatus
  | succeeded
  | failed
deriving DecidableEq, Repr

/-- Swap status, `SwapStatus` from `crate::routes` (variants named in
`src/ldk.rs`). -/
inductive SwapStatus
  | waiting
  | pendingStatus
  | succeeded
  | failed
  | expired
deriving DecidableEq, Repr

/-- Modelled from the spec: the swap kind enumeration of `SwapData.swap_info`
(`crate::swap` is not part of the provided sources); spec section 3 lists
`kind: \x7bFromBtc, ToBtc, AssetForAsset\x7d`. -/
inductive SwapKind
  | fromBtc
  | toBtc
  | assetForAsset
deriving DecidableEq, Repr

/-- Modelled from the spec: `SwapInfo` (`crate::swap` is not part of the
provided sources); spec section 3 gives
`\x7bfrom_asset: Option AssetId, to_asset: Option AssetId, qty_from: u64,
qty_to: u64, kind\x7d`, and `src/ldk.rs` reads exactly these fields.
`is_from_btc` / `is_to_btc` test the kind. -/
structure SwapInfo where
  from_asset : Option Nat
  to_asset : Option Nat
  qty_from : Nat
  qty_to : Nat
  kind : SwapKind
deriving DecidableEq, Repr

/-- SwapData (`crate::swap`, fields as used in `src/ldk.rs` and spec
section 3). -/
structure SwapData where
  swap_info : SwapInfo
  status : SwapStatus
  initiated_at : Option Nat
  completed_at : Option Nat
deriving DecidableEq, Repr

/-- PaymentInfo, `src/ldk.rs` lines 106-111.  Preimage and secret are opaque
32-byte values, modelled as `Nat`. -/
structure PaymentInfo where
  preimage : Option Nat
  secret : Option Nat
  status : HTLCStatus
  amt_msat : Option Nat
deriving DecidableEq, Repr

/-- Swap-validator branch for a `FromBtc` swap, `src/ldk.rs` lines
1089-1097: computes the `fail` flag.  `inbound_contract` stands for
`inbound_rgb_info.map(|x| x.0)`. -/
def from_btc_fail (sw : SwapInfo) (inbound_amount_msat expected_outbound_amount_msat : Nat)
    (inbound_rgb_amount inbound_contract : Option Nat) : Bool :=
  let net_msat_diff := checked_sub expected_outbound_amount_msat inbound_amount_msat
  decide (inbound_rgb_amount ≠ some sw.qty_to)
    || decide (inbound_contract ≠ sw.to_asset)
    || decide (net_msat_diff ≠ some sw.qty_from)

/-- Swap-validator branch for a `ToBtc` swap, `src/ldk.rs` lines 1098-1107.
`outbound_contract` stands for `outbound_rgb_info.map(|x| x.0)`;
`saturating_sub` on `u64` is `Nat.sub`. -/
def to_btc_fail (sw : SwapInfo) (inbound_amount_msat expected_outbound_amount_msat : Nat)
    (expected_outbound_rgb_amount outbound_contract : Option Nat) : Bool :=
  let net_msat_diff := inbound_amount_msat - expected_outbound_amount_msat
  decide (expected_outbound_rgb_amount ≠ some sw.qty_from)
    || decide (outbound_contract ≠ sw.from_asset)
    || decide (net_msat_diff ≠ sw.qty_to)

/-- Swap-validator branch for an asset-for-asset swap, `src/ldk.rs` lines
1108-1119. -/
def asset_for_asset_fail (sw : SwapInfo) (inbound_amount_msat expected_outbound_amount_msat : Nat)
    (inbound_rgb_amount expected_outbound_rgb_amount inbound_contract outbound_contract :
      Option Nat) : Bool :=
  let net_msat_diff := checked_sub inbound_amount_msat expected_outbound_amount_msat
  decide (net_msat_diff ≠ some 0)
    || decide (expected_outbound_rgb_amount ≠ some sw.qty_from)
    || decide (outbound_contract ≠ sw.from_asset)
    || decide (inbound_rgb_amount ≠ some sw.qty_to)
    || decide (inbound_contract ≠ sw.to_asset)

/-- Fields of the `Event::HTLCIntercepted` variant consumed by the handler,
`src/ldk.rs` lines 1024-1034. -/
structure InterceptParams where
  is_swap : Bool
  payment_hash : Nat
  intercept_id : Nat
  inbound_amount_msat : Nat
  expected_outbound_amount_msat : Nat
  inbound_rgb_amount : Option Nat
  expected_outbound_rgb_amount : Option Nat
  requested_next_hop_scid : Nat
  prev_short_channel_id : Nat
deriving DecidableEq, Repr

/-- The `fail` flag computed for a whitelisted swap, `src/ldk.rs` lines
1088-1119: dispatch on `is_from_btc` / `is_to_btc` / else. -/
def swap_validator_fail (sw : SwapInfo) (p : InterceptParams)
    (inbound_contract outbound_contract : Option Nat) : Bool :=
  match sw.kind with
  | SwapKind.fromBtc =>
      from_btc_fail sw p.inbound_amount_msat p.expected_outbound_amount_msat
        p.inbound_rgb_amount inbound_contract
  | SwapKind.toBtc =>
      to_btc_fail sw p.inbound_amount_msat p.expected_outbound_amount_msat
        p.expected_outbound_rgb_amount outbound_contract
  | SwapKind.assetForAsset =>
      asset_for_asset_fail sw p.inbound_amount_msat p.expected_outbound_amount_msat
        p.inbound_rgb_amount p.expected_outbound_rgb_amount inbound_contract outbound_contract

/-- Commands the `HTLCIntercepted` handler issues back to the Lightning
engine and to the taker-swap ledger, in program order. -/
inductive Effect
  | failHtlc (intercept_id : Nat)
  | setTakerStatus (payment_hash : Nat) (st : SwapStatus)
  | forwardHtlc (intercept_id scid node_id amount_msat : Nat) (rgb_amount : Option Nat)
deriving DecidableEq, Repr

/-- Handler of `Event::HTLCIntercepted`, `src/ldk.rs` lines 1024-1146, as
the ordered list of commands it issues.  Note the source has no `return`
after the `!is_swap` fail (lines 1035-1040), so processing continues;
`outbound_node` is `outbound_channel.counterparty.node_id`. -/
def handle_htlc_intercepted (taker_swaps : List (Nat × SwapData)) (p : InterceptParams)
    (inbound_contract outbound_contract : Option Nat) (outbound_node : Nat) : List Effect :=
  let pre := if p.is_swap then [] else [Effect.failHtlc p.intercept_id]
  match alookup taker_swaps p.payment_hash with
  | none => pre ++ [Effect.failHtlc p.intercept_id]
  | some whitelist_swap =>
    if swap_validator_fail whitelist_swap.swap_info p inbound_contract outbound_contract then
      pre ++ [Effect.setTakerStatus p.payment_hash SwapStatus.failed,
              Effect.failHtlc p.intercept_id]
    else
      pre ++ [Effect.setTakerStatus p.payment_hash SwapStatus.pendingStatus,
              Effect.forwardHtlc p.intercept_id p.requested_next_hop_scid outbound_node
                p.expected_outbound_amount_msat p.expected_outbound_rgb_amount]

/-- Ledger-store operation `update_outbound_payment_status`, `src/ldk.rs`
lines 310-315.  The source calls `.get_mut(&payment_id).unwrap()` and then
assigns the status unconditionally; the `unwrap` on an absent key is a
panic, modelled as `Except.error`.  `save_outbound_payments` runs only on
the `ok` branch. -/
def update_outbound_payment_status (m : List (Nat × PaymentInfo)) (payment_id : Nat)
    (status : HTLCStatus) : Except String (List (Nat × PaymentInfo)) :=
  match alookup m payment_id with
  | none => Except.error "unwrap on None"
  | some payment => Except.ok (ainsert m payment_id { payment with status := status })

/-- Ledger-store operation `update_inbound_payment_status`, `src/ldk.rs`
lines 317-326: same shape as the outbound variant, keyed by payment hash. -/
def update_inbound_payment_status (m : List (Nat × PaymentInfo)) (payment_hash : Nat)
    (status : HTLCStatus) : Except String (List (Nat × PaymentInfo)) :=
  match alookup m payment_hash with
  | none => Except.error "unwrap on None"
  | some payment => Except.ok (ainsert m payment_hash { payment with status := status })

/-- Ledger-store operation `update_outbound_payment`, `src/ldk.rs` lines
295-308: unconditionally overwrites status and preimage of an existing
record and returns a clone of it; panics (`unwrap`) on an absent key. -/
def update_outbound_payment (m : List (Nat × PaymentInfo)) (payment_id : Nat)
    (status : HTLCStatus) (preimage : Option Nat) :
    Except String (PaymentInfo × List (Nat × PaymentInfo)) :=
  match alookup m payment_id with
  | none => Except.error "unwrap on None"
  | some p =>
    let p' := { p with status := status, preimage := preimage }
    Except.ok (p', ainsert m payment_id p')

/-- Ledger-store operation `upsert_inbound_payment`, `src/ldk.rs` lines
267-293: on an occupied entry it overwrites status, preimage and secret
(leaving `amt_msat` untouched); on a vacant entry it inserts a fresh
record. -/
def upsert_inbound_payment (m : List (Nat × PaymentInfo)) (payment_hash : Nat)
    (status : HTLCStatus) (preimage secret amt_msat : Option Nat) :
    List (Nat × PaymentInfo) :=
  match alookup m payment_hash with
  | some payment =>
      ainsert m payment_hash
        { payment with status := status, preimage := preimage, secret := secret }
  | none =>
      ainsert m payment_hash
        { preimage := preimage, secret := secret, status := status, amt_msat := amt_msat }

/-- Ledger-store operation `update_maker_swap_status`, `src/ldk.rs` lines
159-171: `unwrap` on an absent hash panics; the `Waiting` arm is an
explicit panic; otherwise `initiated_at` (on `Pending`) or `completed_at`
(on a terminal status) is set to the current timestamp (`now`) and the
status overwritten; `save_maker_swaps` runs only on the `ok` branch. -/
def update_maker_swap_status (m : List (Nat × SwapData)) (payment_hash : Nat)
    (status : SwapStatus) (now : Nat) : Except String (List (Nat × SwapData)) :=
  match alookup m payment_hash with
  | none => Except.error "unwrap on None"
  | some sw =>
    match status with
    | SwapStatus.waiting =>
        Except.error "this doesn't make sense: swap starts in Waiting status"
    | SwapStatus.pendingStatus =>
        Except.ok (ainsert m payment_hash
          { sw with initiated_at := some now, status := status })
    | _ =>
        Except.ok (ainsert m payment_hash
          { sw with completed_at := some now, status := status })

/-- Ledger-store operation `update_taker_swap_status`, `src/ldk.rs` lines
183-195: identical logic to the maker variant on the taker map. -/
def update_taker_swap_status (m : List (Nat × SwapData)) (payment_hash : Nat)
    (status : SwapStatus) (now : Nat) : Except String (List (Nat × SwapData)) :=
  match alookup m payment_hash with
  | none => Except.error "unwrap on None"
  | some sw =>
    match status with
    | SwapStatus.waiting =>
        Except.error "this doesn't make sense: swap starts in Waiting status"
    | SwapStatus.pendingStatus =>
        Except.ok (ainsert m payment_hash
          { sw with initiated_at := some now, status := status })
    | _ =>
        Except.ok (ainsert m payment_hash
          { sw with completed_at := some now, status := status })

/-- Handler of `Event::PaymentFailed`, `src/ldk.rs` lines 750-771: if the
payment hash is a maker swap, mark it `Failed`; otherwise mark the outbound
payment `Failed` by payment id.  Errors of the store operations (panics)
propagate. -/
def handle_payment_failed (maker_swaps : List (Nat × SwapData))
    (outbound : List (Nat × PaymentInfo)) (payment_hash payment_id now : Nat) :
    Except String (List (Nat × SwapData) × List (Nat × PaymentInfo)) :=
  if (alookup maker_swaps payment_hash).isSome then
    (update_maker_swap_status maker_swaps payment_hash SwapStatus.failed now).map
      (fun m => (m, outbound))
  else
    (update_outbound_payment_status outbound payment_id HTLCStatus.failed).map
      (fun o => (maker_swaps, o))

/-- Handler of `Event::InvoiceRequestFailed`, `src/ldk.rs` lines 772-779:
unconditionally marks the outbound payment `Failed` by payment id. -/
def handle_invoice_request_failed (outbound : List (Nat × PaymentInfo))
    (payment_id : Nat) : Except String (List (Nat × PaymentInfo)) :=
  update_outbound_payment_status outbound payment_id HTLCStatus.failed

/-- Channel-id tracker operation `add_channel_id`, `src/ldk.rs` lines
332-342: insert the temporary-to-final mapping. -/
def add_channel_id (m : List (Nat × Nat)) (former_temporary_channel_id channel_id : Nat) :
    List (Nat × Nat) :=
  ainsert m former_temporary_channel_id channel_id

/-- Channel-id tracker operation `delete_channel_id`, `src/ldk.rs` lines
344-361: `find_map` over the map for an entry whose value is the final
channel id; if found, remove that one key.  Rust `HashMap` iteration order
is arbitrary, so the model's first-match order coincides with the source
exactly when at most one entry has the given value. -/
def delete_channel_id (m : List (Nat × Nat)) (channel_id : Nat) : List (Nat × Nat) :=
  match m.find? (fun p => p.2 == channel_id) with
  | none => m
  | some p => aerase m p.1

/-- Errors and panics of `check_password_validity`. -/
inductive PwCheckResult
  | ok (mnemonic : Nat)
  | errNotInitialized
  | panicInvalidMnemonic
deriving DecidableEq, Repr

/-- Password check `check_password_validity`, `src/utils.rs` lines 176-191:
reads the mnemonic file (its read result modelled as `mnemonic_file :
Option String`), parses it (`Mnemonic::from_str`, an external parser
modelled as `parse`; a parse failure is an `expect` panic), and never
inspects `password` — the decryption code is commented out in the source.
Returns `NotInitialized` exactly when the file cannot be read. -/
def check_password_validity (password : String) (mnemonic_file : Option String)
    (parse : String → Option Nat) : PwCheckResult :=
  match mnemonic_file with
  | some contents =>
    match parse contents with
    | some m => PwCheckResult.ok m
    | none => PwCheckResult.panicInvalidMnemonic
  | none => PwCheckResult.errNotInitialized

/-- Side effects of the non-cached branch of `spend_spendable_outputs`. -/
inductive SpendEffect
  | signPsbt
  | colorPsbt
  | postConsignment (contract_id : Nat)
deriving DecidableEq, Repr

/-- Outcome of the non-cached branch of `spend_spendable_outputs`: the
vanilla path (`src/ldk.rs` lines 1265-1274, every descriptor plain —
delegates to `keys_manager.spend_spendable_outputs`, which signs but does
not touch the cache), the colored path (lines 1276-1366, which colors,
signs and posts consignments), or a failure (`Err`). -/
inductive BuildOutcome
  | vanilla (tx : Nat)
  | colored (tx : Nat) (effs : List SpendEffect)
  | failure
deriving DecidableEq, Repr

/-- Colored output spender `spend_spendable_outputs`, `src/ldk.rs` lines
1166-1367, as a function of the cache `txes`.  A descriptor set is an
opaque list (`List Nat`); `hashD` models the `DefaultHasher` hash over the
set (lines 1175-1177) and `build` abstracts the external
construct/color/sign/post pipeline, reporting its effects.  On a cache hit
(lines 1179-1181) the cached transaction is returned as-is with no
effects; on colored success the transaction is inserted under the
descriptor-set hash and the cache persisted (lines 1361-1366); the vanilla
path returns without caching. -/
def spend_spendable_outputs (hashD : List Nat → Nat) (build : List Nat → BuildOutcome)
    (txes : List (Nat × Nat)) (descriptors : List Nat) :
    Option Nat × List (Nat × Nat) × List SpendEffect :=
  match alookup txes (hashD descriptors) with
  | some tx => (some tx, txes, [])
  | none =>
    match build descriptors with
    | BuildOutcome.vanilla tx => (some tx, txes, [SpendEffect.signPsbt])
    | BuildOutcome.colored tx effs =>
        (some tx, ainsert txes (hashD descriptors) tx, effs)
    | BuildOutcome.failure => (none, txes, [])

/-- Acceptance condition of the From-Bitcoin branch as the claim words it:
checked millisatoshi difference equals `qty_from`, inbound RGB amount
equals `qty_to`, and contract identity matches on both the inbound and the
outbound leg (spec: outbound-leg contract id equals the swap's target
asset). -/
def from_btc_claim_accept (sw : SwapInfo) (p : InterceptParams)
    (inbound_contract outbound_contract : Option Nat) : Prop :=
  checked_sub p.expected_outbound_amount_msat p.inbound_amount_msat = some sw.qty_from ∧
  p.inbound_rgb_amount = some sw.qty_to ∧
  inbound_contract = sw.to_asset ∧
  outbound_contract = sw.to_asset

/-- Requirement the claim states for To-Bitcoin acceptance: saturating
millisatoshi difference equals `qty_to`, the inbound-leg asset amount
equals `qty_from`, and the inbound-leg contract id equals the swap's
source asset. -/
def to_btc_claim_requirement (sw : SwapInfo) (p : InterceptParams)
    (inbound_contract : Option Nat) : Prop :=
  p.inbound_amount_msat - p.expected_outbound_amount_msat = sw.qty_to ∧
  p.inbound_rgb_amount = some sw.qty_from ∧
  inbound_contract = sw.from_asset

/-- Claim C1, counterexample: for a `FromBtc` swap with target asset 1,
an intercepted HTLC whose inbound leg matches the swap terms is accepted
(`fail = false`) even though the outbound-leg contract id is 2, so
acceptance is not equivalent to the claim's both-legs condition and a
partial match is accepted. -/
theorem c1_counterexample :
    ¬ ((swap_validator_fail
          { from_asset := none, to_asset := some 1, qty_from := 5, qty_to := 10,
            kind := SwapKind.fromBtc }
          { is_swap := true, payment_hash := 7, intercept_id := 3,
            inbound_amount_msat := 100, expected_outbound_amount_msat := 105,
            inbound_rgb_amount := some 10, expected_outbound_rgb_amount := none,
            requested_next_hop_scid := 42, prev_short_channel_id := 8 }
          (some 1) (some 2) = false) ↔
        from_btc_claim_accept
          { from_asset := none, to_asset := some 1, qty_from := 5, qty_to := 10,
            kind := SwapKind.fromBtc }
          { is_swap := true, payment_hash := 7, intercept_id := 3,
            inbound_amount_msat := 100, expected_outbound_amount_msat := 105,
            inbound_rgb_amount := some 10, expected_outbound_rgb_amount := none,
            requested_next_hop_scid := 42, prev_short_channel_id := 8 }
          (some 1) (some 2)) := by
  unfold from_btc_claim_accept
  decide

/-- Claim C1 (amended): for a whitelisted taker swap of kind `FromBtc`, the
validator accepts (does not set the fail flag) iff the checked subtraction
`expected_outbound_amount_msat - inbound_amount_msat` equals
`some qty_from`, the inbound RGB amount equals `some qty_to`, and the
inbound-leg contract id equals the swap's target asset; the outbound leg
is not consulted. -/
theorem c1_theorem (sw : SwapInfo) (p : InterceptParams) (ic oc : Option Nat)
    (hk : sw.kind = SwapKind.fromBtc) :
    swap_validator_fail sw p ic oc = false ↔
      (checked_sub p.expected_outbound_amount_msat p.inbound_amount_msat = some sw.qty_from ∧
       p.inbound_rgb_amount = some sw.qty_to ∧
       ic = sw.to_asset) := by
  simp only [swap_validator_fail, hk, from_btc_fail, Bool.or_eq_false_iff,
    decide_eq_false_iff_not, not_not]
  tauto

/-- Claim C1, witness for the amended theorem at a concrete accepted
input. -/
theorem c1_witness :
    swap_validator_fail
        { from_asset := none, to_asset := some 1, qty_from := 5, qty_to := 10,
          kind := SwapKind.fromBtc }
        { is_swap := true, payment_hash := 7, intercept_id := 3,
          inbound_amount_msat := 100, expected_outbound_amount_msat := 105,
          inbound_rgb_amount := some 10, expected_outbound_rgb_amount := none,
          requested_next_hop_scid := 42, prev_short_channel_id := 8 }
        (some 1) none = false ↔
      (checked_sub 105 100 = some 5 ∧ (some 10 : Option Nat) = some 10 ∧
       (some 1 : Option Nat) = some 1) :=
  c1_theorem _ _ _ _ rfl

/-- Claim C2: for an intercepted swap HTLC (`is_swap = true`) matched
against a whitelisted taker swap, a validation mismatch makes the handler
mark the swap `Failed` and fail the HTLC with no forward command, while a
full match makes it mark the swap `Pending` and forward to the requested
next hop with exactly the event's `expected_outbound_amount_msat` and
`expected_outbound_rgb_amount`. -/
theorem c2_theorem (taker : List (Nat × SwapData)) (p : InterceptParams)
    (ic oc : Option Nat) (node : Nat) (sw : SwapData)
    (hswap : p.is_swap = true) (hfound : alookup taker p.payment_hash = some sw) :
    (swap_validator_fail sw.swap_info p ic oc = true →
      handle_htlc_intercepted taker p ic oc node =
        [Effect.setTakerStatus p.payment_hash SwapStatus.failed,
         Effect.failHtlc p.intercept_id]) ∧
    (swap_validator_fail sw.swap_info p ic oc = false →
      handle_htlc_intercepted taker p ic oc node =
        [Effect.setTakerStatus p.payment_hash SwapStatus.pendingStatus,
         Effect.forwardHtlc p.intercept_id p.requested_next_hop_scid node
           p.expected_outbound_amount_msat p.expected_outbound_rgb_amount]) := by
  constructor <;> intro hf <;> simp [handle_htlc_intercepted, hswap, hfound, hf]

/-- Claim C2, witness: a concrete matching swap HTLC yields exactly the
`Pending` status update followed by the forward command with the event's
outbound amounts. -/
theorem c2_witness :
    handle_htlc_intercepted
        [(7, { swap_info :=
                { from_asset := none, to_asset := some 1, qty_from := 5, qty_to := 10,
                  kind := SwapKind.fromBtc },
               status := SwapStatus.waiting, initiated_at := none, completed_at := none })]
        { is_swap := true, payment_hash := 7, intercept_id := 3,
          inbound_amount_msat := 100, expected_outbound_amount_msat := 105,
          inbound_rgb_amount := some 10, expected_outbound_rgb_amount := none,
          requested_next_hop_scid := 42, prev_short_channel_id := 8 }
        (some 1) none 99 =
      [Effect.setTakerStatus 7 SwapStatus.pendingStatus,
       Effect.forwardHtlc 3 42 99 105 none] :=
  (c2_theorem
    [(7, { swap_info :=
            { from_asset := none, to_asset := some 1, qty_from := 5, qty_to := 10,
              kind := SwapKind.fromBtc },
           status := SwapStatus.waiting, initiated_at := none, completed_at := none })]
    { is_swap := true, payment_hash := 7, intercept_id := 3,
      inbound_amount_msat := 100, expected_outbound_amount_msat := 105,
      inbound_rgb_amount := some 10, expected_outbound_rgb_amount := none,
      requested_next_hop_scid := 42, prev_short_channel_id := 8 }
    (some 1) none 99
    { swap_info :=
        { from_asset := none, to_asset := some 1, qty_from := 5, qty_to := 10,
          kind := SwapKind.fromBtc },
      status := SwapStatus.waiting, initiated_at := none, completed_at := none }
    rfl rfl).2 (by decide)

/-- Claim C3, divergence witness: with `is_swap = false` the handler fails
the intercepted HTLC but, lacking a `return`, continues swap processing:
for a whitelisted matching swap it still marks the swap `Pending` and
issues a forward command for the already-failed HTLC. -/
theorem c3_code_divergence :
    handle_htlc_intercepted
        [(7, { swap_info :=
                { from_asset := none, to_asset := some 1, qty_from := 5, qty_to := 10,
                  kind := SwapKind.fromBtc },
               status := SwapStatus.waiting, initiated_at := none, completed_at := none })]
        { is_swap := false, payment_hash := 7, intercept_id := 3,
          inbound_amount_msat := 100, expected_outbound_amount_msat := 105,
          inbound_rgb_amount := some 10, expected_outbound_rgb_amount := none,
          requested_next_hop_scid := 42, prev_short_channel_id := 8 }
        (some 1) none 99 =
      [Effect.failHtlc 3,
       Effect.setTakerStatus 7 SwapStatus.pendingStatus,
       Effect.forwardHtlc 3 42 99 105 none] := by
  decide

/-- Claim C4: once a transaction is cached under the stable hash of a
descriptor set, invoking `spend_spendable_outputs` with the same set
returns that transaction unchanged, leaves the cache untouched, and
performs no signing, coloring or consignment posting. -/
theorem c4_theorem (hashD : List Nat → Nat) (build : List Nat → BuildOutcome)
    (txes : List (Nat × Nat)) (descriptors : List Nat) (tx : Nat)
    (hcached : alookup txes (hashD descriptors) = some tx) :
    spend_spendable_outputs hashD build txes descriptors = (some tx, txes, []) := by
  simp [spend_spendable_outputs, hcached]

/-- Claim C4, witness at a concrete cached descriptor set. -/
theorem c4_witness :
    spend_spendable_outputs (fun _ => 0) (fun _ => BuildOutcome.failure)
        [(0, 42)] [] = (some 42, [(0, 42)], []) :=
  c4_theorem _ _ _ _ _ rfl

/-- Claim C5, counterexample: for a `ToBtc` swap the validator accepts an
HTLC whose outbound leg matches `qty_from`/source asset even though the
inbound-leg asset amount and contract id (which the claim says are
required) do not match, so the claim's inbound-leg requirement does not
hold of the code. -/
theorem c5_counterexample :
    swap_validator_fail
        { from_asset := some 1, to_asset := none, qty_from := 7, qty_to := 3,
          kind := SwapKind.toBtc }
        { is_swap := true, payment_hash := 7, intercept_id := 3,
          inbound_amount_msat := 103, expected_outbound_amount_msat := 100,
          inbound_rgb_amount := none, expected_outbound_rgb_amount := some 7,
          requested_next_hop_scid := 42, prev_short_channel_id := 8 }
        none (some 1) = false ∧
    ¬ to_btc_claim_requirement
        { from_asset := some 1, to_asset := none, qty_from := 7, qty_to := 3,
          kind := SwapKind.toBtc }
        { is_swap := true, payment_hash := 7, intercept_id := 3,
          inbound_amount_msat := 103, expected_outbound_amount_msat := 100,
          inbound_rgb_amount := none, expected_outbound_rgb_amount := some 7,
          requested_next_hop_scid := 42, prev_short_channel_id := 8 }
        none := by
  unfold to_btc_claim_requirement
  decide

/-- Claim C5 (amended): for a whitelisted taker swap of kind `ToBtc`,
acceptance holds iff the saturating subtraction
`inbound_amount_msat - expected_outbound_amount_msat` equals `qty_to`, the
outbound-leg asset amount (`expected_outbound_rgb_amount`) equals
`some qty_from`, and the outbound-leg contract id equals the swap's source
asset; the inbound leg is not consulted. -/
theorem c5_theorem (sw : SwapInfo) (p : InterceptParams) (ic oc : Option Nat)
    (hk : sw.kind = SwapKind.toBtc) :
    swap_validator_fail sw p ic oc = false ↔
      (p.inbound_amount_msat - p.expected_outbound_amount_msat = sw.qty_to ∧
       p.expected_outbound_rgb_amount = some sw.qty_from ∧
       oc = sw.from_asset) := by
  simp only [swap_validator_fail, hk, to_btc_fail, Bool.or_eq_false_iff,
    decide_eq_false_iff_not, not_not]
  tauto

/-- Claim C5, witness for the amended theorem at a concrete accepted
input. -/
theorem c5_witness :
    swap_validator_fail
        { from_asset := some 1, to_asset := none, qty_from := 7, qty_to := 3,
          kind := SwapKind.toBtc }
        { is_swap := true, payment_hash := 7, intercept_id := 3,
          inbound_amount_msat := 103, expected_outbound_amount_msat := 100,
          inbound_rgb_amount := some 7, expected_outbound_rgb_amount := some 7,
          requested_next_hop_scid := 42, prev_short_channel_id := 8 }
        (some 1) (some 1) = false ↔
      (103 - 100 = 3 ∧ (some 7 : Option Nat) = some 7 ∧
       (some 1 : Option Nat) = some 1) :=
  c5_theorem _ _ _ _ rfl

/-- Claim C6, counterexample: `update_outbound_payment_status` applied to a
record in the terminal `Succeeded` state with target status `Pending`
returns normally and re-opens the record to `Pending` instead of rejecting
or no-oping the transition. -/
theorem c6_counterexample :
    update_outbound_payment_status
        [(1, { preimage := none, secret := none, status := HTLCStatus.succeeded,
               amt_msat := some 5 })]
        1 HTLCStatus.pendingStatus =
      Except.ok
        [(1, { preimage := none, secret := none, status := HTLCStatus.pendingStatus,
               amt_msat := some 5 })] := by
  rfl

/-- Claim C6 (amended): the status-update operations overwrite the stored
status unconditionally — after `update_outbound_payment_status` or
`update_inbound_payment_status` on a present record, the record's status
is exactly the status passed, whatever the prior status was (including
`Pending` over a terminal state); monotonicity is not enforced by the
store. -/
theorem c6_theorem (m : List (Nat × PaymentInfo)) (k : Nat) (st : HTLCStatus)
    (p : PaymentInfo) (h : alookup m k = some p) :
    (∃ m', update_outbound_payment_status m k st = Except.ok m' ∧
       alookup m' k = some { p with status := st }) ∧
    (∃ m', update_inbound_payment_status m k st = Except.ok m' ∧
       alookup m' k = some { p with status := st }) := by
  constructor
  · exact ⟨ainsert m k { p with status := st },
      by simp [update_outbound_payment_status, h], alookup_ainsert_self _ _ _⟩
  · exact ⟨ainsert m k { p with status := st },
      by simp [update_inbound_payment_status, h], alookup_ainsert_self _ _ _⟩

/-- Claim C6, witness for the amended theorem at a concrete record. -/
theorem c6_witness :
    (∃ m', update_outbound_payment_status
        [(1, { preimage := none, secret := none, status := HTLCStatus.succeeded,
               amt_msat := some 5 })] 1 HTLCStatus.pendingStatus = Except.ok m' ∧
       alookup m' 1 = some { preimage := none, secret := none,
                             status := HTLCStatus.pendingStatus, amt_msat := some 5 }) ∧
    (∃ m', update_inbound_payment_status
        [(1, { preimage := none, secret := none, status := HTLCStatus.succeeded,
               amt_msat := some 5 })] 1 HTLCStatus.pendingStatus = Except.ok m' ∧
       alookup m' 1 = some { preimage := none, secret := none,
                             status := HTLCStatus.pendingStatus, amt_msat := some 5 }) :=
  c6_theorem
    [(1, { preimage := none, secret := none, status := HTLCStatus.succeeded,
           amt_msat := some 5 })]
    1 HTLCStatus.pendingStatus
    { preimage := none, secret := none, status := HTLCStatus.succeeded, amt_msat := some 5 }
    rfl

/-- Claim C7: calling `update_maker_swap_status` or
`update_taker_swap_status` with target status `Waiting` never returns
normally — it is a panic (on the `Waiting` arm when the hash is present,
on the `unwrap` when it is absent) — so the swap map is neither modified
nor persisted by such a call. -/
theorem c7_theorem (m : List (Nat × SwapData)) (payment_hash now : Nat) :
    (∀ m', update_maker_swap_status m payment_hash SwapStatus.waiting now ≠ Except.ok m') ∧
    (∀ m', update_taker_swap_status m payment_hash SwapStatus.waiting now ≠ Except.ok m') := by
  refine ⟨fun m' h => ?_, fun m' h => ?_⟩
  · cases hl : alookup m payment_hash <;> simp [update_maker_swap_status, hl] at h
  · cases hl : alookup m payment_hash <;> simp [update_taker_swap_status, hl] at h

/-- Claim C8: if no existing entry of the channel-ids map already has
`channel_id` as its final id (final channel ids are unique, so this is the
reachable case and makes the model's match order agree with the source's
arbitrary `HashMap` iteration order), then after `add_channel_id tmp
channel_id` followed by `delete_channel_id channel_id` the temporary id no
longer resolves to any final id; and each temporary id resolves to at most
one final id. -/
theorem c8_theorem (m : List (Nat × Nat)) (tmp channel_id : Nat)
    (hfresh : ∀ q ∈ m, q.2 ≠ channel_id) :
    alookup (delete_channel_id (add_channel_id m tmp channel_id) channel_id) tmp = none ∧
    ∀ k v1 v2,
      alookup (delete_channel_id (add_channel_id m tmp channel_id) channel_id) k = some v1 →
      alookup (delete_channel_id (add_channel_id m tmp channel_id) channel_id) k = some v2 →
      v1 = v2 := by
  constructor
  · have hadd : add_channel_id m tmp channel_id = (tmp, channel_id) :: aerase m tmp := rfl
    have hdel :
        delete_channel_id ((tmp, channel_id) :: aerase m tmp) channel_id =
          aerase ((tmp, channel_id) :: aerase m tmp) tmp := by
      simp [delete_channel_id, List.find?]
    rw [hadd, hdel]
    have : aerase ((tmp, channel_id) :: aerase m tmp) tmp = aerase (aerase m tmp) tmp := by
      simp [aerase, List.filter_cons]
    rw [this]
    exact alookup_aerase _ _
  · intro k v1 v2 h1 h2
    rw [h1] at h2
    exact Option.some.inj h2

/-- Claim C8, witness at a concrete map with one unrelated entry. -/
theorem c8_witness :
    alookup (delete_channel_id (add_channel_id [(0, 5)] 1 9) 9) 1 = none :=
  (c8_theorem [(0, 5)] 1 9 (by decide)).1

/-- Claim C9: `check_password_validity` does not depend on its password
argument — any two passwords give the same result over the same mnemonic
file — it returns `NotInitialized` exactly when the mnemonic file cannot
be read, and when the file is readable and its contents parse it returns
the stored mnemonic with no decryption or password verification. -/
theorem c9_theorem (p1 p2 : String) (mnemonic_file : Option String)
    (parse : String → Option Nat) :
    check_password_validity p1 mnemonic_file parse =
        check_password_validity p2 mnemonic_file parse ∧
    (check_password_validity p1 mnemonic_file parse = PwCheckResult.errNotInitialized ↔
      mnemonic_file = none) ∧
    (∀ s m, mnemonic_file = some s → parse s = some m →
      check_password_validity p1 mnemonic_file parse = PwCheckResult.ok m) := by
  refine ⟨rfl, ?_, ?_⟩
  · cases mnemonic_file with
    | none => simp [check_password_validity]
    | some s => cases hp : parse s <;> simp [check_password_validity, hp]
  · rintro s m rfl hp
    simp [check_password_validity, hp]

/-- Claim C9, witness: a concrete readable mnemonic file is returned as-is
for an arbitrary password. -/
theorem c9_witness :
    check_password_validity "password-a" (some "words")
        (fun s => if s = "words" then some 7 else none) = PwCheckResult.ok 7 :=
  (c9_theorem ("password-a") ("password-b") (some "words")
    (fun s => if s = "words" then some 7 else none)).2.2 ("words") 7 rfl (by simp)

/-- Claim C10: each status-update operation panics (never returns normally)
when its payment id or payment hash is absent from its map, and handling a
`PaymentFailed` (for a hash that is no maker swap) or
`InvoiceRequestFailed` event whose payment id was never recorded as an
outbound payment aborts the event handler with that panic instead of
no-oping. -/
theorem c10_theorem (mo mi : List (Nat × PaymentInfo)) (ms mt : List (Nat × SwapData))
    (payment_id payment_hash now : Nat) (st : HTLCStatus) (sst : SwapStatus)
    (preimage : Option Nat)
    (ho : alookup mo payment_id = none) (hi : alookup mi payment_hash = none)
    (hms : alookup ms payment_hash = none) (hmt : alookup mt payment_hash = none) :
    update_outbound_payment_status mo payment_id st = Except.error "unwrap on None" ∧
    update_inbound_payment_status mi payment_hash st = Except.error "unwrap on None" ∧
    update_outbound_payment mo payment_id st preimage = Except.error "unwrap on None" ∧
    update_maker_swap_status ms payment_hash sst now = Except.error "unwrap on None" ∧
    update_taker_swap_status mt payment_hash sst now = Except.error "unwrap on None" ∧
    handle_payment_failed ms mo payment_hash payment_id now =
      Except.error "unwrap on None" ∧
    handle_invoice_request_failed mo payment_id = Except.error "unwrap on None" := by
  refine ⟨?_, ?_, ?_, ?_, ?_, ?_, ?_⟩
  · simp [update_outbound_payment_status, ho]
  · simp [update_inbound_payment_status, hi]
  · simp [update_outbound_payment, ho]
  · simp [update_maker_swap_status, hms]
  · simp [update_taker_swap_status, hmt]
  · simp [handle_payment_failed, hms, update_outbound_payment_status, ho, Except.map]
  · simp [handle_invoice_request_failed, update_outbound_payment_status, ho]

/-- Claim C10, witness at empty maps. -/
theorem c10_witness :
    update_outbound_payment_status [] 1 HTLCStatus.failed =
        Except.error "unwrap on None" ∧
    update_inbound_payment_status [] 2 HTLCStatus.failed =
        Except.error "unwrap on None" ∧
    update_outbound_payment [] 1 HTLCStatus.failed none =
        Except.error "unwrap on None" ∧
    update_maker_swap_status [] 2 SwapStatus.failed 0 = Except.error "unwrap on None" ∧
    update_taker_swap_status [] 2 SwapStatus.failed 0 = Except.error "unwrap on None" ∧
    handle_payment_failed [] [] 2 1 0 = Except.error "unwrap on None" ∧
    handle_invoice_request_failed [] 1 = Except.error "unwrap on None" :=
  c10_theorem [] [] [] [] 1 2 0 HTLCStatus.failed SwapStatus.failed none
    rfl rfl rfl rfl
